import Mathlib

/-
Verification development for the MQTT → Telegram bridge
(`mqtt_telegram.py`).  The message-handling pipeline is shallowly
embedded: the JSON decode of the payload text (library code,
`json.loads`) and the two network calls (the ip-api.com lookup and the
Telegram send) are supplied as oracle arguments; everything the script
itself computes is translated into executable Lean definitions.
Python exceptions raised inside the handler are modelled with
`Except Unit` / `Option`; the handler's outer catch-all maps any such
error to "event dropped".
-/

namespace MqttTelegram

/-- Scalar JSON values as produced by `json.loads` for the payloads the
pipeline handles.  JSON `null`, fractional numbers and nested
objects/arrays are not modelled: no analysed behaviour depends on them. -/
inductive JVal where
  | s (v : String)
  | i (v : Int)
  | b (v : Bool)
deriving DecidableEq, Repr

/-- Rendering of a decoded JSON scalar inside a Python f-string
(`f"\x7bkey\x7d: \x7bvalue\x7d"`): strings print bare, integers in decimal,
booleans as `True`/`False`. -/
def pyStr : JVal → String
  | .s v => v
  | .i v => toString v
  | .b v => if v then "True" else "False"

/-- A decoded JSON object: keys with values, in received order.
`json.loads` produces unique keys; theorems that iterate over the whole
object carry a `Nodup` hypothesis recording that. -/
abbrev Payload := List (String × JVal)

/-- Python `payload.get(k)`: the value stored under `k`, or `None`
(here `none`) when the key is absent. -/
def pyGet (k : String) : Payload → Option JVal
  | [] => none
  | (k2, v) :: rest => if k2 = k then some v else pyGet k rest

/-- Prefix test on character lists (used to model Python's substring
operator `in`). -/
def isPre : List Char → List Char → Bool
  | [], _ => true
  | _ :: _, [] => false
  | a :: pa, b :: pb => a = b && isPre pa pb

/-- Python's `pat in s` substring containment test, on character lists. -/
def hasSub (pat : List Char) : List Char → Bool
  | [] => List.isEmpty pat
  | c :: rest => isPre pat (c :: rest) || hasSub pat rest

/-- The characters after the last `':'` of the list (the whole list when
no `':'` occurs): this is Python's `raw_ip.split(":")[-1]`, the last
segment of the split. -/
def lastSegAux (acc : List Char) : List Char → List Char
  | [] => acc
  | c :: cs => if c = ':' then lastSegAux [] cs else lastSegAux (acc ++ [c]) cs

/-- Line 114: `ip = raw_ip.split(":")[-1] if "::ffff:" in raw_ip else raw_ip` —
strip an IPv6-mapped-IPv4 prefix by keeping only the text after the last
colon, when the marker `::ffff:` occurs in the raw address. -/
def normalizeIp (raw : String) : String :=
  if hasSub (String.toList "::ffff:") raw.toList then
    String.mk (lastSegAux [] raw.toList)
  else raw

/-- The six fractional digits of `f"\x7bvalue:.6f\x7d"` for the exact value
`m / 10^6` with `m < 10^6`: the zero-padded 6-digit decimal of `m`. -/
def pad6 (m : Nat) : String :=
  String.mk [Nat.digitChar (m / 100000 % 10), Nat.digitChar (m / 10000 % 10),
    Nat.digitChar (m / 1000 % 10), Nat.digitChar (m / 100 % 10),
    Nat.digitChar (m / 10 % 10), Nat.digitChar (m % 10)]

/-- Line 162-163: `value = float(value) / 1_000_000` rendered as
`f"\x7bvalue:.6f\x7d"`.  For an integer frequency `n` the exact result is
`n / 10^6` printed with six decimal places, which this computes exactly
in integer arithmetic.  (For `n.natAbs ≤ 10^15` the double-precision
computation the Python runtime performs is exact to six decimals, so the
integer rendering agrees with it; theorems keep that bound as a
hypothesis.) -/
def fmt6 (n : Int) : String :=
  (if n < 0 then "-" else "") ++ toString (n.natAbs / 1000000) ++ "." ++
    pad6 (n.natAbs % 1000000)

/-- Python `float(value)` for the value under the `freq` key.  Integers
convert exactly, booleans to 0/1; a string raises `ValueError`
(modelled as `Except.error`).  Numeric string literals, which Python's
`float` would accept, are not modelled — the analysis only exercises
non-numeric strings on this path. -/
def pyFloatArg : JVal → Except Unit Int
  | .i n => .ok n
  | .b v => .ok (if v then 1 else 0)
  | .s _ => .error ()

/-- One iteration of the telemetry loop (lines 160-165): the `freq` key
gets the MHz rendering, every other key is formatted `key: value`. -/
def rxLine (kv : String × JVal) : Except Unit String :=
  if kv.1 = "freq" then
    match pyFloatArg kv.2 with
    | .error e => .error e
    | .ok n => .ok (kv.1 ++ ": " ++ fmt6 n ++ " MHz")
  else .ok (kv.1 ++ ": " ++ pyStr kv.2)

/-- The telemetry loop over all keys, in received order; a raised
`ValueError` aborts the loop (and the handler). -/
def rxFormatLines : Payload → Except Unit (List String)
  | [] => .ok []
  | kv :: rest =>
    match rxLine kv with
    | .error e => .error e
    | .ok line =>
      match rxFormatLines rest with
      | .error e => .error e
      | .ok lines => .ok (line :: lines)

/-- Lines 150-153: the per-key loop in the non-`CLIENT`-mode branch —
`key: value` lines with no frequency special case. -/
def plainLines (payload : Payload) : String :=
  String.intercalate "\n" (payload.map (fun kv => kv.1 ++ ": " ++ pyStr kv.2))

/-- Outcome of the HTTP GET to ip-api.com: either a raised exception
(network error, malformed body, …) or a decoded JSON object. -/
inductive HttpResult where
  | err (msg : String)
  | ok (data : Payload)

/-- Lines 51-63, `get_ip_info`: return the decoded response when its
`status` field equals `"success"`; any raised exception (including a
`KeyError` when `status` is absent) is caught and, like a non-success
status, yields `None`. -/
def get_ip_info : HttpResult → Option Payload
  | .err _ => none
  | .ok data =>
    match pyGet "status" data with
    | none => none
    | some v => if v = JVal.s "success" then some data else none

/-- Python `ip_info.get(k, 'N/A')` rendered into the f-string. -/
def geoField (info : Payload) (k : String) : String :=
  match pyGet k info with
  | some v => pyStr v
  | none => "N/A"

/-- Line 113: `raw_ip = payload.get("ip", "")`.  If the stored value is
not a string, line 114's `"::ffff:" in raw_ip` raises a `TypeError`
(modelled as `Except.error`), which the handler's outer catch-all
swallows. -/
def ipRaw (payload : Payload) : Except Unit String :=
  match pyGet "ip" payload with
  | none => .ok ""
  | some (.s v) => .ok v
  | some _ => .error ()

/-- The raw fallback text `f"Topic: \x7btopic\x7d\nMessage: \x7bdecoded\x7d"`
(lines 155, 168, 171). -/
def rawForm (topic decoded : String) : String :=
  "Topic: " ++ topic ++ "\nMessage: " ++ decoded

/-- Lines 124-137: the Connected-client message, with the geolocation
lines when the lookup returned data and the unavailable-info line
otherwise. -/
def connectedText (ip : String) : Option Payload → String
  | some info =>
      "👤 Cliente Conectado\n🌐 IP: " ++ ip ++
      "\n🏳️ País: " ++ geoField info "country" ++
      "\n🏢 Ciudad: " ++ geoField info "city" ++
      "\n📡 ISP: " ++ geoField info "isp"
  | none =>
      "👤 Cliente Conectado\n🌐 IP: " ++ ip ++
      "\nNo se pudo obtener información adicional de la IP"

/-- Lines 106-172 of `on_message`: the message-text computation.
Arguments: the topic, the decoded payload text, the result of
`json.loads` on it (`none` = `JSONDecodeError`; the parse itself is
library code and is supplied as an oracle), and the ip-api.com response
oracle.  `Except.error ()` models a Python exception escaping this
region: the `TypeError` on a non-string `ip`, the `ValueError` from
`float(...)`, or the `UnboundLocalError` when `message_text` was never
assigned (mode `CLIENT` with a state that is neither Connected nor
Disconnected). -/
def formatMessage (topic decoded : String) (parsed : Option Payload)
    (resp : HttpResult) : Except Unit String :=
  match parsed with
  | none => .ok (rawForm topic decoded)
  | some payload =>
    if topic = "OpenwebRX/CLIENT" then
      if pyGet "mode" payload = some (.s "CLIENT") then
        match ipRaw payload with
        | .error e => .error e
        | .ok raw_ip =>
          let ip := normalizeIp raw_ip
          if pyGet "state" payload = some (.s "Connected") then
            .ok (connectedText ip (get_ip_info resp))
          else if pyGet "state" payload = some (.s "Disconnected") then
            .ok ("👤 Cliente Desconectado\n🌐 IP: " ++ ip)
          else .error ()
      else
        if topic = "OpenwebRX/RX" then .ok (plainLines payload)
        else .ok (rawForm topic decoded)
    else
      if topic = "OpenwebRX/RX" then
        match rxFormatLines payload with
        | .error e => .error e
        | .ok parts => .ok (String.intercalate "\n" parts)
      else .ok (rawForm topic decoded)

/-- Lines 97-183, `on_message`: the full handler.  Returns the list of
texts handed to `send_telegram_message` — a singleton when formatting
succeeded, and `[]` when an exception was raised and caught by the outer
`except` (the event is dropped).  Totality of this definition is the
model of "no exception propagates out of the handler". -/
def on_message (topic decoded : String) (parsed : Option Payload)
    (resp : HttpResult) : List String :=
  match formatMessage topic decoded parsed resp with
  | .ok t => [t]
  | .error _ => []

/-- Observable outcome of one `send_telegram_message` call: whether the
message was delivered, and the log lines emitted (the non-debug ones). -/
structure SendResult where
  delivered : Bool
  logLines : List String

/-- Lines 66-95, `send_telegram_message`: one delivery attempt.  The
`outcome` oracle is the `bot.send_message` network call (`ok` carries
the response message id).  Every exception is caught inside the
function: on failure the error is logged together with only the first
ten characters of the bot token, and the message is dropped — there is
no retry.  The configuration globals `TELEGRAM_TOKEN` / `CHAT_ID` are
passed as parameters. -/
def send_telegram_message (token chatId message : String)
    (outcome : Except String Nat) : SendResult :=
  match outcome with
  | .ok msgId =>
      { delivered := true
        logLines :=
          ["Message sent successfully to Telegram. Message ID: " ++ toString msgId] }
  | .error e =>
      { delivered := false
        logLines :=
          ["Failed to send message to Telegram: " ++ e,
           "Token: " ++ String.take token 10 ++ "... Chat ID: " ++ chatId,
           "Full Telegram error details:"] }

/-- Spec-side (from the spec's words): the raw IP string contains the
literal substring `::ffff:`. -/
def specContainsFFFF (raw : String) : Prop :=
  ∃ l r : List Char, raw.toList = l ++ String.toList "::ffff:" ++ r

/-- Spec-side (from the spec's words) rendering of one telemetry line:
`key: value`, except that under the frequency key the value (an integer
number of Hz) is divided by 1,000,000 and rendered with six decimal
places followed by `" MHz"`. -/
def specLine : String × JVal → String
  | (k, JVal.i n) =>
    if k = "freq" then k ++ ": " ++ fmt6 n ++ " MHz"
    else k ++ ": " ++ pyStr (JVal.i n)
  | (k, v) => k ++ ": " ++ pyStr v

theorem isPre_iff (p l : List Char) : isPre p l = true ↔ ∃ r, l = p ++ r := by
  induction p generalizing l with
  | nil => simp [isPre]
  | cons a pa ih =>
    cases l with
    | nil =>
      refine iff_of_false (by simp [isPre]) ?_
      rintro ⟨r, h⟩
      exact List.cons_ne_nil _ _ h.symm
    | cons b lb =>
      simp only [isPre, Bool.and_eq_true, decide_eq_true_eq, ih]
      constructor
      · rintro ⟨rfl, r, rfl⟩
        exact ⟨r, rfl⟩
      · rintro ⟨r, h⟩
        rw [List.cons_append] at h
        injection h with h1 h2
        exact ⟨h1.symm, r, h2⟩

theorem hasSub_iff (p l : List Char) :
    hasSub p l = true ↔ ∃ l1 r, l = l1 ++ p ++ r := by
  induction l with
  | nil =>
    cases p with
    | nil => simp [hasSub, List.isEmpty]
    | cons x xs =>
      refine iff_of_false (by simp [hasSub, List.isEmpty]) ?_
      rintro ⟨l1, r, h⟩
      rcases List.append_eq_nil.mp h.symm with ⟨h1, -⟩
      rcases List.append_eq_nil.mp h1 with ⟨-, h3⟩
      exact List.cons_ne_nil _ _ h3
  | cons c rest ih =>
    simp only [hasSub, Bool.or_eq_true, ih, isPre_iff]
    constructor
    · rintro (⟨r, hr⟩ | ⟨l1, r, hr⟩)
      · exact ⟨[], r, by simpa using hr⟩
      · exact ⟨c :: l1, r, by simp [hr]⟩
    · rintro ⟨l1, r, h⟩
      cases l1 with
      | nil =>
        left
        exact ⟨r, by simpa using h⟩
      | cons x xs =>
        right
        rw [List.cons_append, List.cons_append] at h
        injection h with h1 h2
        exact ⟨xs, r, h2⟩

theorem lastSegAux_no_colon (l : List Char) :
    ∀ acc, ':' ∉ acc → ':' ∉ lastSegAux acc l := by
  induction l with
  | nil =>
    intro acc h
    simpa [lastSegAux] using h
  | cons c cs ih =>
    intro acc h
    by_cases hc : c = ':'
    · rw [lastSegAux, if_pos hc]
      exact ih [] (by simp)
    · rw [lastSegAux, if_neg hc]
      refine ih (acc ++ [c]) ?_
      simp only [List.mem_append, List.mem_singleton]
      rintro (h1 | h2)
      · exact h h1
      · exact hc h2.symm

theorem lastSegAux_decomp (l : List Char) :
    ∀ acc, acc ++ l = lastSegAux acc l ∨
      ∃ pre, acc ++ l = pre ++ ':' :: lastSegAux acc l := by
  induction l with
  | nil =>
    intro acc
    left
    simp [lastSegAux]
  | cons c cs ih =>
    intro acc
    by_cases hc : c = ':'
    · subst hc
      rw [lastSegAux, if_pos rfl]
      rcases ih [] with h | ⟨pre, h⟩
      · right
        refine ⟨acc, ?_⟩
        rw [← h]
        simp
      · right
        refine ⟨acc ++ ':' :: pre, ?_⟩
        rw [List.nil_append] at h
        nth_rewrite 1 [h]
        simp
    · rw [lastSegAux, if_neg hc]
      rcases ih (acc ++ [c]) with h | ⟨pre, h⟩
      · left
        rw [← h]
        simp
      · right
        refine ⟨pre, ?_⟩
        rw [← h]
        simp

/-- C5: the IP normalization used in client-presence output.  If the raw
string contains the literal substring `::ffff:`, the result is the
substring after the last colon — characterized as: it contains no colon,
and the raw string decomposes as some prefix, a colon, then exactly the
result.  Otherwise the raw string is returned unchanged.  In particular
`::ffff:10.0.0.5` normalizes to `10.0.0.5`. -/
theorem c5_ip_normalization :
    (∀ raw : String,
      (specContainsFFFF raw →
        ':' ∉ (normalizeIp raw).toList ∧
        ∃ pre, raw.toList = pre ++ ':' :: (normalizeIp raw).toList) ∧
      (¬ specContainsFFFF raw → normalizeIp raw = raw)) ∧
    normalizeIp "::ffff:10.0.0.5" = "10.0.0.5" := by
  constructor
  · intro raw
    constructor
    · intro h
      obtain ⟨l, r, hdec⟩ := h
      have hsub : hasSub (String.toList "::ffff:") raw.toList = true :=
        (hasSub_iff _ _).2 ⟨l, r, hdec⟩
      have htl : (normalizeIp raw).toList = lastSegAux [] raw.toList := by
        rw [normalizeIp, if_pos hsub]
        rfl
      have hnc : ':' ∉ lastSegAux [] raw.toList :=
        lastSegAux_no_colon _ [] (by simp)
      refine ⟨by rw [htl]; exact hnc, ?_⟩
      rcases lastSegAux_decomp raw.toList [] with hd | ⟨pre, hd⟩
      · exfalso
        rw [List.nil_append] at hd
        have h7 : ':' ∈ String.toList "::ffff:" := by decide
        have hcol : ':' ∈ raw.toList := by
          rw [hdec]
          simp [h7]
        rw [hd] at hcol
        exact hnc hcol
      · rw [List.nil_append] at hd
        exact ⟨pre, by rw [htl]; exact hd⟩
    · intro h
      have hn : ¬ hasSub (String.toList "::ffff:") raw.toList = true := by
        intro hs
        exact h ((hasSub_iff _ _).1 hs)
      rw [normalizeIp, if_neg hn]
  · decide

/-- Witness for C5 at the spec's concrete address. -/
theorem c5_witness :
    ':' ∉ (normalizeIp "::ffff:10.0.0.5").toList ∧
    ∃ pre, ("::ffff:10.0.0.5" : String).toList =
      pre ++ ':' :: (normalizeIp "::ffff:10.0.0.5").toList :=
  (c5_ip_normalization.1 "::ffff:10.0.0.5").1
    ⟨[], String.toList "10.0.0.5", by decide⟩

/-- C1: on the client-presence topic with `mode != "CLIENT"`, the claim's
first case ("the topic literally equals the telemetry topic") can never
arise — the two topic literals differ, as the first conjunct records, so
the conditional per-key conjunct is vacuous (the code's dead branch at
line 149 would in fact format without the frequency rule) — and the
produced text is always the raw `Topic: <topic>\nMessage: <raw text>`
form. -/
theorem c1_nonclient_fallback (payload : Payload) (decoded : String)
    (resp : HttpResult)
    (hmode : pyGet "mode" payload ≠ some (JVal.s "CLIENT")) :
    ("OpenwebRX/CLIENT" : String) ≠ "OpenwebRX/RX" ∧
    (("OpenwebRX/CLIENT" : String) = "OpenwebRX/RX" →
      ∃ parts, rxFormatLines payload = .ok parts ∧
        formatMessage "OpenwebRX/CLIENT" decoded (some payload) resp =
          .ok (String.intercalate "\n" parts)) ∧
    formatMessage "OpenwebRX/CLIENT" decoded (some payload) resp =
      .ok (rawForm "OpenwebRX/CLIENT" decoded) := by
  have hne : ("OpenwebRX/CLIENT" : String) ≠ "OpenwebRX/RX" := by decide
  refine ⟨hne, fun h => absurd h hne, ?_⟩
  simp [formatMessage, hmode, hne]

/-- Witness for C1: a presence payload whose mode is not `CLIENT` falls
back to the raw text form. -/
theorem c1_witness :
    formatMessage "OpenwebRX/CLIENT" "x" (some [("mode", JVal.s "TX")])
        (.err "e") =
      .ok (rawForm "OpenwebRX/CLIENT" "x") :=
  (c1_nonclient_fallback [("mode", JVal.s "TX")] "x" (.err "e") (by decide)).2.2

/-- C2 counterexample: a client-presence payload with
`state == "Disconnected"` but `mode != "CLIENT"` is formatted as the raw
`Topic/Message` fallback, not as the "Client Disconnected" header with
an IP line — the claim as stated omits the `mode == "CLIENT"` condition
that guards the whole presence branch (line 111). -/
theorem c2_counterexample :
    formatMessage "OpenwebRX/CLIENT" "raw"
        (some [("mode", JVal.s "OTHER"), ("state", JVal.s "Disconnected"),
               ("ip", JVal.s "1.2.3.4")])
        (.err "down") =
      .ok (rawForm "OpenwebRX/CLIENT" "raw") ∧
    rawForm "OpenwebRX/CLIENT" "raw" ≠ "👤 Cliente Desconectado\n🌐 IP: 1.2.3.4" := by
  constructor
  · rfl
  · decide

/-- C2 (amended): on the client-presence topic, when the decoded payload
has `mode == "CLIENT"` and `state == "Disconnected"` (and its `ip`
entry, defaulting to the empty string, is a string, so that the
substring test on it does not raise), the produced text is the "Client
Disconnected" header plus an IP line, and the IP is normalized by
`normalizeIp` — the very same rule the Connected branch uses, computed
once in the shared scope at line 114. -/
theorem c2_disconnected_header (payload : Payload) (decoded : String)
    (resp : HttpResult) (raw_ip : String)
    (hmode : pyGet "mode" payload = some (JVal.s "CLIENT"))
    (hstate : pyGet "state" payload = some (JVal.s "Disconnected"))
    (hip : ipRaw payload = .ok raw_ip) :
    formatMessage "OpenwebRX/CLIENT" decoded (some payload) resp =
      .ok ("👤 Cliente Desconectado\n🌐 IP: " ++ normalizeIp raw_ip) := by
  have hne : pyGet "state" payload ≠ some (JVal.s "Connected") := by
    rw [hstate]
    decide
  simp [formatMessage, hmode, hip, hstate, hne]

/-- Witness for C2 (amended), with an IPv6-mapped address that gets
stripped. -/
theorem c2_witness :
    formatMessage "OpenwebRX/CLIENT" "x"
        (some [("mode", JVal.s "CLIENT"), ("state", JVal.s "Disconnected"),
               ("ip", JVal.s "::ffff:10.0.0.5")])
        (.err "e") =
      .ok "👤 Cliente Desconectado\n🌐 IP: 10.0.0.5" := by
  have h := c2_disconnected_header
      [("mode", JVal.s "CLIENT"), ("state", JVal.s "Disconnected"),
       ("ip", JVal.s "::ffff:10.0.0.5")]
      "x" (.err "e") "::ffff:10.0.0.5" rfl rfl rfl
  rw [h]
  rfl

/-- C10: a client-presence payload with `mode == "CLIENT"` whose state is
neither `Connected` nor `Disconnected` assigns `message_text` in no
branch; the resulting `UnboundLocalError` at the send call (line 178) —
or, for a non-string `ip` value, the earlier `TypeError` — is caught by
the handler's outer `except`, and the event is dropped with no outbound
message. -/
theorem c10_unknown_state_dropped (payload : Payload) (decoded : String)
    (resp : HttpResult)
    (hmode : pyGet "mode" payload = some (JVal.s "CLIENT"))
    (hc : pyGet "state" payload ≠ some (JVal.s "Connected"))
    (hd : pyGet "state" payload ≠ some (JVal.s "Disconnected")) :
    on_message "OpenwebRX/CLIENT" decoded (some payload) resp = [] := by
  rcases hip : ipRaw payload with e | raw_ip
  · simp [on_message, formatMessage, hmode, hip]
  · simp [on_message, formatMessage, hmode, hip, hc, hd]

/-- Witness for C10: an unrecognized state produces no outbound message. -/
theorem c10_witness :
    on_message "OpenwebRX/CLIENT" "x"
        (some [("mode", JVal.s "CLIENT"), ("state", JVal.s "Banned"),
               ("ip", JVal.s "1.2.3.4")])
        (.err "e") = [] :=
  c10_unknown_state_dropped _ "x" (.err "e") rfl (by decide) (by decide)

theorem rxFormatLines_freq_int (payload : Payload)
    (hfreq : ∀ v, ("freq", v) ∈ payload → ∃ n : Int, v = JVal.i n) :
    rxFormatLines payload = .ok (payload.map specLine) := by
  induction payload with
  | nil => rfl
  | cons kv rest ih =>
    obtain ⟨k, v⟩ := kv
    have hline : rxLine (k, v) = .ok (specLine (k, v)) := by
      by_cases hk : k = "freq"
      · subst hk
        obtain ⟨n, rfl⟩ := hfreq v (List.mem_cons_self _ _)
        simp [rxLine, pyFloatArg, specLine]
      · cases v <;> simp [rxLine, specLine, hk]
    have hrest := ih (fun v hv => hfreq v (List.mem_cons_of_mem _ hv))
    rw [rxFormatLines, hline, hrest]
    rfl

/-- C3 counterexample: a telemetry payload that decodes as structured
data but carries a non-numeric string under `freq` makes
`float(value)` raise a `ValueError`; the handler's outer `except`
swallows it and the event is dropped — no per-key output is produced,
contrary to the claim's universal "one line per key". -/
theorem c3_counterexample :
    formatMessage "OpenwebRX/RX" "x" (some [("freq", JVal.s "FM")])
        (.err "e") = .error () ∧
    on_message "OpenwebRX/RX" "x" (some [("freq", JVal.s "FM")]) (.err "e") = [] :=
  ⟨rfl, rfl⟩

/-- C3 (amended): for every telemetry-topic payload that decodes as
structured key/value data and whose `freq` entries hold integer values
(within 10^15, where the double-precision division the runtime performs
is exact to six decimals), the output has one `key: value` line per key
in received order, with the `freq` value divided by 1,000,000 and
rendered with exactly six decimal places (`pad6` always has length 6)
followed by `" MHz"`; in particular `freq = 145000000` yields the line
`freq: 145.000000 MHz`. -/
theorem c3_rx_freq_formatting (payload : Payload) (decoded : String)
    (resp : HttpResult)
    (hfreq : ∀ v, ("freq", v) ∈ payload →
      ∃ n : Int, v = JVal.i n ∧ n.natAbs ≤ 10 ^ 15)
    (hkeys : (payload.map Prod.fst).Nodup) :
    formatMessage "OpenwebRX/RX" decoded (some payload) resp =
      .ok (String.intercalate "\n" (payload.map specLine)) ∧
    (∀ m : Nat, (pad6 m).length = 6) ∧
    formatMessage "OpenwebRX/RX" decoded (some [("freq", JVal.i 145000000)]) resp =
      .ok "freq: 145.000000 MHz" := by
  have hne : ("OpenwebRX/RX" : String) ≠ "OpenwebRX/CLIENT" := by decide
  have hmain := rxFormatLines_freq_int payload
    (fun v hv => (hfreq v hv).imp (fun n hn => hn.1))
  refine ⟨by simp [formatMessage, hne, hmain], fun m => rfl, by rfl⟩

/-- Witness for C3 (amended), matching the spec's end-to-end telemetry
scenario. -/
theorem c3_witness :
    formatMessage "OpenwebRX/RX" "x"
        (some [("freq", JVal.i 433920000), ("mode", JVal.s "FM")]) (.err "e") =
      .ok "freq: 433.920000 MHz\nmode: FM" := by
  have hf : ∀ v, ("freq", v) ∈
      ([("freq", JVal.i 433920000), ("mode", JVal.s "FM")] : Payload) →
      ∃ n : Int, v = JVal.i n ∧ n.natAbs ≤ 10 ^ 15 := by
    intro v hv
    simp only [List.mem_cons, List.not_mem_nil, or_false, Prod.mk.injEq] at hv
    rcases hv with ⟨-, rfl⟩ | ⟨h1, -⟩
    · exact ⟨433920000, rfl, by norm_num⟩
    · exact absurd h1 (by decide)
  have h := (c3_rx_freq_formatting
      [("freq", JVal.i 433920000), ("mode", JVal.s "FM")] "x" (.err "e")
      hf (by decide)).1
  rw [h]
  rfl

/-- C4: a payload text that fails JSON decoding yields, on any topic,
exactly the raw `Topic: <topic>\nMessage: <raw text>` form, and
processing continues — the handler still hands exactly that text to the
sender.  (The code also logs the failure at error level, line 172, a
side effect outside this embedding.) -/
theorem c4_decode_failure_raw (topic decoded : String) (resp : HttpResult) :
    formatMessage topic decoded none resp =
      .ok ("Topic: " ++ topic ++ "\nMessage: " ++ decoded) ∧
    on_message topic decoded none resp =
      ["Topic: " ++ topic ++ "\nMessage: " ++ decoded] :=
  ⟨rfl, rfl⟩

/-- C6: every failure of the geolocation lookup — a raised exception
(network error, malformed body), a missing `status` field, or a
non-`"success"` status — uniformly yields `none` ("no information"),
never an exception (the model is total); and in the client-Connected
case a `none` lookup result yields the Connected header, the IP line,
and the additional-info-unavailable line. -/
theorem c6_enrichment_failure :
    (∀ m, get_ip_info (.err m) = none) ∧
    (∀ data : Payload, pyGet "status" data ≠ some (JVal.s "success") →
      get_ip_info (.ok data) = none) ∧
    (∀ (payload : Payload) (decoded : String) (resp : HttpResult)
        (raw_ip : String),
      pyGet "mode" payload = some (JVal.s "CLIENT") →
      pyGet "state" payload = some (JVal.s "Connected") →
      ipRaw payload = .ok raw_ip →
      get_ip_info resp = none →
      formatMessage "OpenwebRX/CLIENT" decoded (some payload) resp =
        .ok ("👤 Cliente Conectado\n🌐 IP: " ++ normalizeIp raw_ip ++
          "\nNo se pudo obtener información adicional de la IP")) := by
  refine ⟨fun m => rfl, ?_, ?_⟩
  · intro data h
    rcases hs : pyGet "status" data with _ | v
    · simp [get_ip_info, hs]
    · have hv : ¬ v = JVal.s "success" := by
        intro hv
        exact h (by rw [hs, hv])
      simp [get_ip_info, hs, hv]
  · intro payload decoded resp raw_ip hmode hstate hip hgeo
    simp [formatMessage, hmode, hstate, hip, hgeo, connectedText]

/-- Witness for C6: a network failure, a non-success response, and the
degraded Connected output. -/
theorem c6_witness :
    get_ip_info (.err "timeout") = none ∧
    get_ip_info (.ok [("status", JVal.s "fail")]) = none ∧
    formatMessage "OpenwebRX/CLIENT" "x"
        (some [("mode", JVal.s "CLIENT"), ("state", JVal.s "Connected"),
               ("ip", JVal.s "192.0.2.1")]) (.err "net") =
      .ok ("👤 Cliente Conectado\n🌐 IP: " ++ normalizeIp "192.0.2.1" ++
        "\nNo se pudo obtener información adicional de la IP") :=
  ⟨c6_enrichment_failure.1 "timeout",
   c6_enrichment_failure.2.1 [("status", JVal.s "fail")] (by decide),
   c6_enrichment_failure.2.2
     [("mode", JVal.s "CLIENT"), ("state", JVal.s "Connected"),
      ("ip", JVal.s "192.0.2.1")] "x" (.err "net") "192.0.2.1" rfl rfl rfl rfl⟩

/-- C7: a failed delivery attempt is fully contained in
`send_telegram_message` (the model's totality is the no-propagation
property): the message is not delivered and, the attempt being single
by construction, is dropped with no retry; the logged credential
context holds only the first ten characters of the bot token. -/
theorem c7_delivery_failure_contained (token chatId message e : String) :
    (send_telegram_message token chatId message (.error e)).delivered = false ∧
    (send_telegram_message token chatId message (.error e)).logLines =
      ["Failed to send message to Telegram: " ++ e,
       "Token: " ++ String.take token 10 ++ "... Chat ID: " ++ chatId,
       "Full Telegram error details:"] ∧
    (String.take token 10).length ≤ 10 := by
  refine ⟨rfl, rfl, ?_⟩
  rw [String.take_eq]
  have hmk : (String.mk (token.data.take 10)).length = (token.data.take 10).length := rfl
  rw [hmk, List.length_take]
  exact min_le_left _ _

/-- C8: per inbound broker message the handler hands the sender at most
one outbound text — exactly one when formatting succeeds, none when the
decode/format stage raised (the event is dropped); the handler model is
a total function, which is the embedding of "no exception propagates
out of the handler". -/
theorem c8_single_outbound (topic decoded : String) (parsed : Option Payload)
    (resp : HttpResult) :
    (on_message topic decoded parsed resp).length ≤ 1 ∧
    (on_message topic decoded parsed resp = [] ↔
      formatMessage topic decoded parsed resp = .error ()) ∧
    (∀ t, formatMessage topic decoded parsed resp = .ok t →
      on_message topic decoded parsed resp = [t]) := by
  rcases h : formatMessage topic decoded parsed resp with e | t
  · cases e
    refine ⟨by simp [on_message, h], by simp [on_message, h], ?_⟩
    intro t ht
    simp at ht
  · refine ⟨by simp [on_message, h], by simp [on_message, h], ?_⟩
    intro t2 ht
    injection ht with h2
    subst h2
    simp [on_message, h]

/-- Witness for C8: a successfully formatted message is sent exactly
once. -/
theorem c8_witness :
    on_message "other/topic" "hello" none (.err "e") =
      [rawForm "other/topic" "hello"] :=
  (c8_single_outbound "other/topic" "hello" none (.err "e")).2.2
    (rawForm "other/topic" "hello") rfl

/-- C9: formatting is deterministic — two evaluations of the formatting
logic on equal (topic, decoded-or-raw payload, lookup response) inputs
give identical outbound text; in this embedding the formatter is a pure
function of exactly those inputs, with no hidden state. -/
theorem c9_deterministic (t1 t2 d1 d2 : String) (p1 p2 : Option Payload)
    (r1 r2 : HttpResult) (ht : t1 = t2) (hd : d1 = d2) (hp : p1 = p2)
    (hr : r1 = r2) :
    formatMessage t1 d1 p1 r1 = formatMessage t2 d2 p2 r2 := by
  rw [ht, hd, hp, hr]

/-- Witness for C9 at a concrete telemetry message. -/
theorem c9_witness :
    formatMessage "OpenwebRX/RX" "x" (some [("freq", JVal.i 433920000)])
        (.err "e") =
      formatMessage "OpenwebRX/RX" "x" (some [("freq", JVal.i 433920000)])
        (.err "e") :=
  c9_deterministic _ _ _ _ _ _ _ _ rfl rfl rfl rfl

end MqttTelegram
